import Mathlib

/-!
Verification of the credit-dashboard repository (`src/dashboard.py`).

The Python source is a pandas/streamlit dashboard. We embed its data
processing shallowly:

* a pandas DataFrame row becomes a `PortfolioRecord`; a DataFrame becomes a
  `List PortfolioRecord`;
* numeric columns are rationals (`ℚ`); integer columns are `Int`;
* `Series.mean()` on an empty series yields NaN in pandas; we model a mean
  that may be NaN as `Option ℚ`, with `none` standing for NaN;
* `pd.cut(x, bins=[0,20,40,60,80,100], labels=[...])` with the default
  `right=True` assigns `x` to the left-open right-closed interval
  `(lo, hi]`; values outside `(0, 100]` get NaN, modelled as `none`;
* `Series.value_counts()` on a categorical series reports every category
  (zero-filled) sorted by descending count; we model it as a stable
  descending sort over the category-ordered count list;
* `astype(int)` truncates toward zero; on the clipped credit scores
  (all ≥ 300 > 0) truncation coincides with `Int.floor`, which is what we
  use;
* the numpy random draws of `generate_sample_data` are not reproduced;
  instead the raw draws are an explicit input (`RawDraws`) and we embed the
  deterministic post-processing (clipping / truncation) applied to them;
* in-place DataFrame updates (`df['age_group'] = ...`) become explicit
  state passing: each dashboard step takes the current record list and
  returns its result together with the record list after the step.
-/

/-- Age-group labels of `pd.cut(df['age'], bins=[0,25,35,45,55,100], labels=['18-25','26-35','36-45','46-55','55+'])`. -/
inductive AgeGroup where
  | g18_25
  | g26_35
  | g36_45
  | g46_55
  | g55plus
deriving DecidableEq, Repr

/-- Risk-band labels of `pd.cut(df['default_risk'], bins=[0,20,40,60,80,100], labels=['Very Low','Low','Medium','High','Very High'])`. -/
inductive RiskBand where
  | VeryLow
  | Low
  | Medium
  | High
  | VeryHigh
deriving DecidableEq, Repr

/-- One row of the dashboard's DataFrame.  The `age_group` column does not
exist when the frame is built by `generate_sample_data`; it is added in
place by `create_dashboard` (line 94), so it is an `Option` that starts
out `none`. -/
structure PortfolioRecord where
  customer_id : Nat
  age : Int
  income : ℚ
  credit_score : Int
  loan_amount : ℚ
  payment_history : ℚ
  existing_loans : Int
  employment_length : Int
  default_risk : ℚ
  age_group : Option AgeGroup := none
deriving DecidableEq, Repr

/-- `Series.clip(lo, hi)` applied to one value. -/
def clipQ (lo hi x : ℚ) : ℚ := min (max x lo) hi

/-- `Series.mean()`: NaN (`none`) on an empty series, else sum / length. -/
def seriesMean (xs : List ℚ) : Option ℚ :=
  if xs.isEmpty then none else some (xs.sum / xs.length)

/-- Result dictionary of `calculate_risk_metrics`. -/
structure RiskMetrics where
  avg_credit_score : Option ℚ
  high_risk_customers : Nat
  total_loan_amount : ℚ
  avg_default_risk : Option ℚ
deriving DecidableEq, Repr

/-- `calculate_risk_metrics(df)` from `src/dashboard.py` lines 32–40:
mean credit score, count of rows with `default_risk > 70`, sum of
`loan_amount`, mean default risk.  No empty-input check appears in the
source; on an empty frame the pandas means are NaN (`none` here). -/
def calculate_risk_metrics (df : List PortfolioRecord) : RiskMetrics :=
  { avg_credit_score := seriesMean (df.map (fun r => (r.credit_score : ℚ)))
    high_risk_customers := (df.filter (fun r => decide (70 < r.default_risk))).length
    total_loan_amount := (df.map (fun r => r.loan_amount)).sum
    avg_default_risk := seriesMean (df.map (fun r => r.default_risk)) }

/-- `pd.cut` on `default_risk` with `bins=[0,20,40,60,80,100]` and the
default `right=True`: left-open right-closed intervals, NaN outside
`(0, 100]`. -/
def bandOf (x : ℚ) : Option RiskBand :=
  if 0 < x ∧ x ≤ 20 then some RiskBand.VeryLow
  else if 20 < x ∧ x ≤ 40 then some RiskBand.Low
  else if 40 < x ∧ x ≤ 60 then some RiskBand.Medium
  else if 60 < x ∧ x ≤ 80 then some RiskBand.High
  else if 80 < x ∧ x ≤ 100 then some RiskBand.VeryHigh
  else none

/-- `pd.cut` on `age` with `bins=[0,25,35,45,55,100]`, default `right=True`. -/
def ageGroupOf (a : Int) : Option AgeGroup :=
  if 0 < a ∧ a ≤ 25 then some AgeGroup.g18_25
  else if 25 < a ∧ a ≤ 35 then some AgeGroup.g26_35
  else if 35 < a ∧ a ≤ 45 then some AgeGroup.g36_45
  else if 45 < a ∧ a ≤ 55 then some AgeGroup.g46_55
  else if 55 < a ∧ a ≤ 100 then some AgeGroup.g55plus
  else none

/-- The categorical order of the risk bands (the `labels=` list). -/
def bandOrder : List RiskBand :=
  [RiskBand.VeryLow, RiskBand.Low, RiskBand.Medium, RiskBand.High, RiskBand.VeryHigh]

/-- Number of rows of `df` whose `default_risk` falls in band `b`. -/
def bandCounts (df : List PortfolioRecord) (b : RiskBand) : Nat :=
  (df.filter (fun r => decide (bandOf r.default_risk = some b))).length

/-- Insert into a count-descending list, stably (equal counts keep their
existing order, the inserted element going first). -/
def insertDesc (x : RiskBand × Nat) : List (RiskBand × Nat) → List (RiskBand × Nat)
  | [] => [x]
  | y :: ys => if y.2 ≤ x.2 then x :: y :: ys else y :: insertDesc x ys

/-- Stable sort by descending count. -/
def sortDesc : List (RiskBand × Nat) → List (RiskBand × Nat)
  | [] => []
  | x :: xs => insertDesc x (sortDesc xs)

/-- The risk-distribution table of `create_dashboard` lines 117–121:
`value_counts()` of the banded series reports every category (zero-filled)
sorted by descending count; ties are modelled as keeping category order. -/
def risk_distribution (df : List PortfolioRecord) : List (RiskBand × Nat) :=
  sortDesc (bandOrder.map (fun b => (b, bandCounts df b)))

/-- The sidebar filter of `create_dashboard` lines 130–133:
`df[(df['credit_score'] >= min_credit_score) & (df['default_risk'] <= max_default_risk)]`. -/
def filter_records (df : List PortfolioRecord) (minCS : Int) (maxDR : ℚ) :
    List PortfolioRecord :=
  df.filter (fun r => decide (minCS ≤ r.credit_score) && decide (r.default_risk ≤ maxDR))

/-- The in-place column assignment `df['age_group'] = pd.cut(df['age'], ...)`
of `create_dashboard` lines 94–95, as the state after the statement. -/
def assign_age_groups (df : List PortfolioRecord) : List PortfolioRecord :=
  df.map (fun r => { r with age_group := ageGroupOf r.age })

/-- The summarize step as a state transformer: `calculate_risk_metrics(df)`
reads `df` and writes nothing back, so the state after is the state before. -/
def summarize_step (df : List PortfolioRecord) : RiskMetrics × List PortfolioRecord :=
  (calculate_risk_metrics df, df)

/-- The risk-band step as a state transformer: lines 117–121 read
`df['default_risk']` and build a fresh table; `df` is not written. -/
def bandByRisk_step (df : List PortfolioRecord) :
    List (RiskBand × Nat) × List PortfolioRecord :=
  (risk_distribution df, df)

/-- The filter step as a state transformer: lines 130–133 build a new frame
`filtered_df`; `df` is not written. -/
def filter_step (df : List PortfolioRecord) (minCS : Int) (maxDR : ℚ) :
    List PortfolioRecord × List PortfolioRecord :=
  (filter_records df minCS maxDR, df)

/-- The band-by-age step as a state transformer: line 94 assigns the new
`age_group` column into `df` itself before the box plot is drawn. -/
def bandByAge_step (df : List PortfolioRecord) :
    List PortfolioRecord × List PortfolioRecord :=
  (assign_age_groups df, assign_age_groups df)

/-- Risk levels of the spec's `RiskClassifier` (§4.3). -/
inductive RiskLevel where
  | Low
  | Medium
  | High
deriving DecidableEq, Repr

/-- Modelled from the spec: the repository's source contains no
`RiskClassifier`; `classify` exists only in the spec (§4.3):
`score ≥ 80 → Low`, `60 ≤ score < 80 → Medium`, `score < 60 → High`. -/
def classify (score : ℚ) : RiskLevel :=
  if 80 ≤ score then RiskLevel.Low
  else if 60 ≤ score then RiskLevel.Medium
  else RiskLevel.High

/-- The raw numpy draws of `generate_sample_data`, made explicit: one
record's worth of `randint` / `normal` / `uniform` outputs before the
clean-up of lines 26–28. -/
structure RawDraws where
  age : Int
  income : ℚ
  credit_score : ℚ
  loan_amount : ℚ
  payment_history : ℚ
  existing_loans : Int
  employment_length : Int
  default_risk : ℚ
deriving DecidableEq, Repr

/-- The deterministic clean-up of `generate_sample_data` (lines 13, 26–28)
applied to one row of raw draws: `income` clipped to `[20000, 150000]`,
`credit_score` clipped to `[300, 850]` then `astype(int)` (truncation
toward zero; on values ≥ 300 this is `Int.floor`), `default_risk` clipped
to `[0, 100]`.  `i` is the zero-based row index, `customer_id = i + 1`. -/
def generate_record (i : Nat) (d : RawDraws) : PortfolioRecord :=
  { customer_id := i + 1
    age := d.age
    income := clipQ 20000 150000 d.income
    credit_score := Int.floor (clipQ 300 850 d.credit_score)
    loan_amount := d.loan_amount
    payment_history := d.payment_history
    existing_loans := d.existing_loans
    employment_length := d.employment_length
    default_risk := clipQ 0 100 d.default_risk }

/-- A convenient concrete record for closed test inputs. -/
def mkRec (id : Nat) (cs : Int) (dr : ℚ) : PortfolioRecord :=
  { customer_id := id
    age := 30
    income := 60000
    credit_score := cs
    loan_amount := 30000
    payment_history := 50
    existing_loans := 1
    employment_length := 5
    default_risk := dr }

/-- The record with `age_group` cleared: used to state that a step changes
nothing but the `age_group` column. -/
def eraseAgeGroup (r : PortfolioRecord) : PortfolioRecord :=
  { r with age_group := none }

/-- Sum of the five per-band counts. -/
def totalBandCount (df : List PortfolioRecord) : Nat :=
  (bandOrder.map (bandCounts df)).sum

/-- A concrete row of raw draws whose credit-score draw has a fractional
part above one half. -/
def c9draws : RawDraws :=
  { age := 30, income := 60000, credit_score := 7009/10, loan_amount := 30000,
    payment_history := 50, existing_loans := 1, employment_length := 5, default_risk := 40 }

theorem insertDesc_perm (x : RiskBand × Nat) (l : List (RiskBand × Nat)) :
    (insertDesc x l).Perm (x :: l) := by
  induction l with
  | nil => exact List.Perm.refl _
  | cons y ys ih =>
    unfold insertDesc
    split
    · exact List.Perm.refl _
    · exact (ih.cons y).trans (List.Perm.swap x y ys)

theorem sortDesc_perm (l : List (RiskBand × Nat)) : (sortDesc l).Perm l := by
  induction l with
  | nil => exact List.Perm.refl _
  | cons x xs ih => exact (insertDesc_perm x (sortDesc xs)).trans (ih.cons x)

theorem insertDesc_sorted (x : RiskBand × Nat) :
    ∀ l : List (RiskBand × Nat), l.Pairwise (fun p q => q.2 ≤ p.2) →
      (insertDesc x l).Pairwise (fun p q => q.2 ≤ p.2) := by
  intro l
  induction l with
  | nil => intro _; simp [insertDesc]
  | cons y ys ih =>
    intro hl
    rw [List.pairwise_cons] at hl
    unfold insertDesc
    split
    case isTrue h =>
      refine List.pairwise_cons.mpr ⟨?_, List.pairwise_cons.mpr ⟨hl.1, hl.2⟩⟩
      intro z hz
      rcases List.mem_cons.mp hz with rfl | hz'
      · exact h
      · exact le_trans (hl.1 z hz') h
    case isFalse h =>
      refine List.pairwise_cons.mpr ⟨?_, ih hl.2⟩
      intro z hz
      rcases List.mem_cons.mp ((insertDesc_perm x ys).mem_iff.mp hz) with rfl | hz'
      · exact le_of_lt (not_le.mp h)
      · exact hl.1 z hz'

theorem sortDesc_sorted : ∀ l : List (RiskBand × Nat),
    (sortDesc l).Pairwise (fun p q => q.2 ≤ p.2)
  | [] => List.Pairwise.nil
  | x :: xs => insertDesc_sorted x (sortDesc xs) (sortDesc_sorted xs)

/-- C1: the risk classifier is a total function on the rationals with
`score ≥ 80 → Low`, `60 ≤ score < 80 → Medium`, `score < 60 → High`;
in particular `classify 80 = Low` and `classify 60 = Medium` (the
boundary values belong to the higher band). -/
theorem C1_classify_thresholds (s : ℚ) :
    (80 ≤ s → classify s = RiskLevel.Low) ∧
    (60 ≤ s ∧ s < 80 → classify s = RiskLevel.Medium) ∧
    (s < 60 → classify s = RiskLevel.High) ∧
    classify 80 = RiskLevel.Low ∧ classify 60 = RiskLevel.Medium := by
  refine ⟨fun h => ?_, fun h => ?_, fun h => ?_, by norm_num [classify], by norm_num [classify]⟩
  · rw [classify, if_pos h]
  · rw [classify, if_neg (not_le.mpr h.2), if_pos h.1]
  · rw [classify, if_neg (by linarith), if_neg (not_le.mpr h)]

/-- C1 witness: the three threshold implications of `C1_classify_thresholds`
instantiated at the scores 85, 70 and 59. -/
theorem C1_classify_thresholds_witness :
    classify 85 = RiskLevel.Low ∧ classify 70 = RiskLevel.Medium ∧
    classify 59 = RiskLevel.High :=
  ⟨(C1_classify_thresholds 85).1 (by norm_num),
   (C1_classify_thresholds 70).2.1 ⟨by norm_num, by norm_num⟩,
   (C1_classify_thresholds 59).2.2.1 (by norm_num)⟩

/-- C2 counterexample: on the empty collection `calculate_risk_metrics`
does not fail at all — it returns a summary whose two means are NaN
(`none`) and whose count and total default to zero, exactly the outcome
the claim says is avoided. -/
theorem C2_counterexample :
    calculate_risk_metrics [] =
      { avg_credit_score := none, high_risk_customers := 0,
        total_loan_amount := 0, avg_default_risk := none } := by decide

/-- C2 amended: on an empty record collection `calculate_risk_metrics`
returns a summary with NaN (`none`) averages, a zero high-risk count and a
zero loan total, and the band operation reports all five bands with count
zero; no error is raised. -/
theorem C2_empty_input_behavior :
    calculate_risk_metrics [] =
      { avg_credit_score := none, high_risk_customers := 0,
        total_loan_amount := 0, avg_default_risk := none } ∧
    (∀ b, bandCounts [] b = 0) ∧
    risk_distribution [] =
      [(RiskBand.VeryLow, 0), (RiskBand.Low, 0), (RiskBand.Medium, 0),
       (RiskBand.High, 0), (RiskBand.VeryHigh, 0)] := by
  refine ⟨by decide, fun b => by cases b <;> decide, by decide⟩

/-- C3 counterexample: a `defaultRisk` of exactly 20 is counted in the
lower band `VeryLow`, not in `Low` as the claim's half-open-left intervals
would put it, and a `defaultRisk` of exactly 0 is assigned to no band
rather than to `VeryLow`. -/
theorem C3_counterexample :
    bandOf 20 = some RiskBand.VeryLow ∧ bandOf 20 ≠ some RiskBand.Low ∧
    bandOf 0 = none := by decide

/-- C3 amended: each `defaultRisk` in `(0, 100]` is assigned to exactly one
of the five bands, via the left-open right-closed intervals `(0,20]`,
`(20,40]`, `(40,60]`, `(60,80]`, `(80,100]` (so the boundary values 20, 40,
60, 80 belong to the lower band), while a `defaultRisk` of exactly 0, or
any value outside `(0, 100]`, is assigned to no band. -/
theorem C3_band_intervals (x : ℚ) :
    (0 < x ∧ x ≤ 20 → bandOf x = some RiskBand.VeryLow) ∧
    (20 < x ∧ x ≤ 40 → bandOf x = some RiskBand.Low) ∧
    (40 < x ∧ x ≤ 60 → bandOf x = some RiskBand.Medium) ∧
    (60 < x ∧ x ≤ 80 → bandOf x = some RiskBand.High) ∧
    (80 < x ∧ x ≤ 100 → bandOf x = some RiskBand.VeryHigh) ∧
    (x ≤ 0 ∨ 100 < x → bandOf x = none) := by
  refine ⟨fun h => ?_, fun h => ?_, fun h => ?_, fun h => ?_, fun h => ?_, fun h => ?_⟩
  · rw [bandOf, if_pos h]
  · rw [bandOf, if_neg (fun hc => absurd hc.2 (not_le.mpr h.1)), if_pos h]
  · rw [bandOf, if_neg (fun hc => absurd hc.2 (not_le.mpr (by linarith [h.1] : (20:ℚ) < x))),
        if_neg (fun hc => absurd hc.2 (not_le.mpr h.1)), if_pos h]
  · rw [bandOf, if_neg (fun hc => absurd hc.2 (not_le.mpr (by linarith [h.1] : (20:ℚ) < x))),
        if_neg (fun hc => absurd hc.2 (not_le.mpr (by linarith [h.1] : (40:ℚ) < x))),
        if_neg (fun hc => absurd hc.2 (not_le.mpr h.1)), if_pos h]
  · rw [bandOf, if_neg (fun hc => absurd hc.2 (not_le.mpr (by linarith [h.1] : (20:ℚ) < x))),
        if_neg (fun hc => absurd hc.2 (not_le.mpr (by linarith [h.1] : (40:ℚ) < x))),
        if_neg (fun hc => absurd hc.2 (not_le.mpr (by linarith [h.1] : (60:ℚ) < x))),
        if_neg (fun hc => absurd hc.2 (not_le.mpr h.1)), if_pos h]
  · rcases h with h | h
    · rw [bandOf, if_neg (fun hc => absurd hc.1 (not_lt.mpr h)),
          if_neg (fun hc => absurd hc.1 (not_lt.mpr (by linarith))),
          if_neg (fun hc => absurd hc.1 (not_lt.mpr (by linarith))),
          if_neg (fun hc => absurd hc.1 (not_lt.mpr (by linarith))),
          if_neg (fun hc => absurd hc.1 (not_lt.mpr (by linarith)))]
    · rw [bandOf, if_neg (fun hc => absurd hc.2 (not_le.mpr (by linarith))),
          if_neg (fun hc => absurd hc.2 (not_le.mpr (by linarith))),
          if_neg (fun hc => absurd hc.2 (not_le.mpr (by linarith))),
          if_neg (fun hc => absurd hc.2 (not_le.mpr (by linarith))),
          if_neg (fun hc => absurd hc.2 (not_le.mpr (by linarith)))]

/-- C3 witness: `C3_band_intervals` instantiated at the risks 10, 20, 95
and 120, discharging each interval hypothesis numerically. -/
theorem C3_band_intervals_witness :
    bandOf 10 = some RiskBand.VeryLow ∧ bandOf 20 = some RiskBand.VeryLow ∧
    bandOf 95 = some RiskBand.VeryHigh ∧ bandOf 120 = none :=
  ⟨(C3_band_intervals 10).1 ⟨by norm_num, by norm_num⟩,
   (C3_band_intervals 20).1 ⟨by norm_num, by norm_num⟩,
   (C3_band_intervals 95).2.2.2.2.1 ⟨by norm_num, by norm_num⟩,
   (C3_band_intervals 120).2.2.2.2.2 (Or.inr (by norm_num))⟩

/-- C4: on a non-empty collection, `calculate_risk_metrics` returns exactly
the arithmetic mean of the credit scores, the count of records with
`default_risk` strictly greater than 70, the sum of the loan amounts, and
the arithmetic mean of the default risks. -/
theorem C4_summarize_nonempty (df : List PortfolioRecord) (h : df ≠ []) :
    calculate_risk_metrics df =
      { avg_credit_score := some ((df.map fun r => (r.credit_score : ℚ)).sum / df.length)
        high_risk_customers := df.countP (fun r => decide (70 < r.default_risk))
        total_loan_amount := (df.map fun r => r.loan_amount).sum
        avg_default_risk := some ((df.map fun r => r.default_risk).sum / df.length) } := by
  unfold calculate_risk_metrics seriesMean
  simp [List.isEmpty_iff, h, List.countP_eq_length_filter]

/-- C4 witness: `C4_summarize_nonempty` applied to a concrete two-record
collection, whose summary evaluates to means 650 and 65, one high-risk
record and a 60000 loan total. -/
theorem C4_summarize_nonempty_witness :
    ([mkRec 1 700 80, mkRec 2 600 50] : List PortfolioRecord) ≠ [] ∧
    calculate_risk_metrics [mkRec 1 700 80, mkRec 2 600 50] =
      { avg_credit_score := some 650, high_risk_customers := 1,
        total_loan_amount := 60000, avg_default_risk := some 65 } := by
  refine ⟨by decide, ?_⟩
  rw [C4_summarize_nonempty [mkRec 1 700 80, mkRec 2 600 50] (by decide)]
  simp [mkRec, List.countP_cons, List.countP_nil]
  norm_num

/-- C5: the filter keeps exactly the records with
`credit_score ≥ minCS` and `default_risk ≤ maxDR` (both boundaries
included), and the result is a subsequence of the input, preserving the
original order. -/
theorem C5_filter_characterization (df : List PortfolioRecord) (minCS : Int) (maxDR : ℚ) :
    (filter_records df minCS maxDR).Sublist df ∧
    (∀ r, r ∈ filter_records df minCS maxDR ↔
      r ∈ df ∧ minCS ≤ r.credit_score ∧ r.default_risk ≤ maxDR) := by
  constructor
  · exact List.filter_sublist df
  · intro r
    simp [filter_records, List.mem_filter, Bool.and_eq_true, decide_eq_true_eq, and_assoc]

/-- C5 witness: `C5_filter_characterization` on a concrete collection,
showing a qualifying boundary record is kept and a failing one dropped. -/
theorem C5_filter_characterization_witness :
    mkRec 1 750 50 ∈ filter_records [mkRec 1 750 50, mkRec 2 600 10] 750 50 ∧
    mkRec 2 600 10 ∉ filter_records [mkRec 1 750 50, mkRec 2 600 10] 750 50 :=
  ⟨((C5_filter_characterization [mkRec 1 750 50, mkRec 2 600 10] 750 50).2 _).mpr
      ⟨by decide, by decide, by norm_num [mkRec]⟩,
   fun hmem =>
     absurd (((C5_filter_characterization [mkRec 1 750 50, mkRec 2 600 10] 750 50).2 _).mp
       hmem).2.1 (by decide)⟩

/-- C6: the sidebar filter is idempotent — filtering an already-filtered
collection with the same thresholds changes nothing. -/
theorem C6_filter_idempotent (df : List PortfolioRecord) (minCS : Int) (maxDR : ℚ) :
    filter_records (filter_records df minCS maxDR) minCS maxDR =
      filter_records df minCS maxDR := by
  unfold filter_records
  rw [List.filter_filter]
  simp

/-- C7 counterexample: with default risks `[90, 90, 10]` the distribution
table starts with `VeryHigh` — `value_counts` orders rows by descending
count, so the bands are not reported in the fixed order
`VeryLow, Low, Medium, High, VeryHigh`. -/
theorem C7_counterexample :
    (risk_distribution [mkRec 1 700 90, mkRec 2 700 90, mkRec 3 700 10]).map Prod.fst ≠
      bandOrder := by decide

/-- C7 amended: the distribution always reports all five bands exactly once
(zero-filled when empty), sorted by descending count rather than in the
fixed band order, and on default risks `[10, 30, 50, 70, 90]` every band
has count exactly 1. -/
theorem C7_distribution_bands (df : List PortfolioRecord) :
    ((risk_distribution df).map Prod.fst).Perm bandOrder ∧
    (∀ b, (b, bandCounts df b) ∈ risk_distribution df) ∧
    (risk_distribution df).Pairwise (fun p q => q.2 ≤ p.2) ∧
    risk_distribution
        [mkRec 1 700 10, mkRec 2 700 30, mkRec 3 700 50, mkRec 4 700 70, mkRec 5 700 90] =
      [(RiskBand.VeryLow, 1), (RiskBand.Low, 1), (RiskBand.Medium, 1),
       (RiskBand.High, 1), (RiskBand.VeryHigh, 1)] := by
  have h1 : (risk_distribution df).Perm (bandOrder.map (fun b => (b, bandCounts df b))) :=
    sortDesc_perm _
  refine ⟨?_, ?_, sortDesc_sorted _, by decide⟩
  · have h2 := h1.map Prod.fst
    simpa [List.map_map, Function.comp] using h2
  · intro b
    have hb : b ∈ bandOrder := by cases b <;> simp [bandOrder]
    exact h1.mem_iff.mpr (List.mem_map.mpr ⟨b, hb, rfl⟩)

/-- C8 counterexample: the band-by-age step writes the `age_group` column
into the collection in place, so the collection after the step differs
from the input. -/
theorem C8_counterexample :
    (bandByAge_step [mkRec 1 700 10]).2 ≠ [mkRec 1 700 10] := by decide

/-- C8 amended: the summarize, band-by-risk and filter steps leave the
record collection unchanged, but the band-by-age step sets every record's
`age_group` in place; it changes no other field. -/
theorem C8_frame_effects (df : List PortfolioRecord) (minCS : Int) (maxDR : ℚ) :
    (summarize_step df).2 = df ∧
    (bandByRisk_step df).2 = df ∧
    (filter_step df minCS maxDR).2 = df ∧
    (bandByAge_step df).2 = df.map (fun r => { r with age_group := ageGroupOf r.age }) ∧
    ((bandByAge_step df).2).map eraseAgeGroup = df.map eraseAgeGroup := by
  refine ⟨rfl, rfl, rfl, rfl, ?_⟩
  show (df.map _).map eraseAgeGroup = df.map eraseAgeGroup
  rw [List.map_map]
  exact List.map_congr_left (fun r _ => rfl)

/-- C9 counterexample: on a credit-score draw of 700.9 the generator
produces 700 — `astype(int)` truncates — while rounding the clipped value
as the claim states would give 701. -/
theorem C9_counterexample :
    (generate_record 0 c9draws).credit_score = 700 ∧
    round (clipQ 300 850 ((7009 : ℚ)/10)) = 701 := by
  constructor
  · show Int.floor (clipQ 300 850 ((7009:ℚ)/10)) = 700
    norm_num [clipQ]
  · norm_num [clipQ, round_eq]

/-- C9 amended: every generated record has `income` in `[20000, 150000]`,
an integer `credit_score` in `[300, 850]` obtained by truncating (flooring)
the clipped draw, and `default_risk` in `[0, 100]`. -/
theorem C9_generator_ranges (i : Nat) (d : RawDraws) :
    20000 ≤ (generate_record i d).income ∧ (generate_record i d).income ≤ 150000 ∧
    300 ≤ (generate_record i d).credit_score ∧ (generate_record i d).credit_score ≤ 850 ∧
    (generate_record i d).credit_score = Int.floor (clipQ 300 850 d.credit_score) ∧
    0 ≤ (generate_record i d).default_risk ∧ (generate_record i d).default_risk ≤ 100 := by
  refine ⟨?_, ?_, ?_, ?_, rfl, ?_, ?_⟩
  · exact le_min (le_max_right _ _) (by norm_num)
  · exact min_le_right _ _
  · show (300 : ℤ) ≤ Int.floor (clipQ 300 850 d.credit_score)
    rw [Int.le_floor]
    exact_mod_cast le_min (le_max_right _ _) (by norm_num)
  · show Int.floor (clipQ 300 850 d.credit_score) ≤ (850 : ℤ)
    have h : clipQ 300 850 d.credit_score ≤ ((850 : ℤ) : ℚ) := by
      exact_mod_cast min_le_right _ _
    calc Int.floor (clipQ 300 850 d.credit_score) ≤ Int.floor ((850 : ℤ) : ℚ) :=
          Int.floor_le_floor h
      _ = 850 := Int.floor_intCast 850
  · exact le_min (le_max_right _ _) (by norm_num)
  · exact min_le_right _ _

/-- C10: a record whose `default_risk` is exactly 0 falls into no band, so
on a collection containing such a record the five band counts sum to
strictly fewer than the number of records. -/
theorem C10_zero_risk_unbanded :
    (∀ r : PortfolioRecord, r.default_risk = 0 → bandOf r.default_risk = none) ∧
    totalBandCount [mkRec 1 700 0] < ([mkRec 1 700 0] : List PortfolioRecord).length := by
  constructor
  · intro r h; rw [h]; decide
  · decide

/-- C10 witness: `C10_zero_risk_unbanded` applied to a concrete record with
`default_risk = 0`. -/
theorem C10_zero_risk_unbanded_witness :
    bandOf (mkRec 1 700 0).default_risk = none :=
  C10_zero_risk_unbanded.1 (mkRec 1 700 0) rfl
